import Mathlib

/-!
Verification of `tools/run_tests/xds_k8s_test_driver/framework/infrastructure/traffic_director.py`.

The module is embedded shallowly: the mutable `TrafficDirectorManager` object
becomes an explicit state record `TDState`; every remote call to the cloud
collaborators (compute, network-security, network-services) is recorded in a
trace of `ApiCall`s; an environment `Env` decides, per call, whether the remote
call raises and what resource objects the remote side returns.  Each Python
method becomes a function `Env → ... → TDState → Step` where
`Step = List ApiCall × Except TDError TDState`: the list is the sequence of
remote calls attempted (in order), and the `Except` is the resulting state or
the first raised exception (which, as in Python, aborts the rest of the body
and of any calling sequence).
-/

/-- A GCP resource handle, as returned by the compute collaborator
(`GcpResource` in `gcp.compute.ComputeV1`): a name and a URL. -/
structure GcpResource where
  name : String
  url : String
deriving DecidableEq, Repr

/-- A zone-scoped GCP resource (`ZonalGcpResource`), e.g. a network endpoint
group discovered in one zone. -/
structure ZonalGcpResource where
  name : String
  url : String
  zone : String
deriving DecidableEq, Repr

/-- Modelled from the spec: `HealthCheckProtocol` lives in the external
`gcp.compute` collaborator (not under `src/`); the spec only requires a GRPC
member plus at least one other protocol. -/
inductive HealthCheckProtocol where
  | GRPC
  | TCP
deriving DecidableEq, Repr

/-- Modelled from the spec: `BackendServiceProtocol` lives in the external
`gcp.compute` collaborator (not under `src/`); the spec describes it as the
enum `{GRPC, HTTP2, ...}`, so a third member `TCP` stands for "any other
recorded protocol value". -/
inductive BackendServiceProtocol where
  | GRPC
  | HTTP2
  | TCP
deriving DecidableEq, Repr

/-- The certificate-provider dictionary built by `_get_certificate_provider`. -/
structure CertProvider where
  pluginInstance : String
deriving DecidableEq, Repr

/-- The `mtlsPolicy` sub-dictionary of a server TLS policy body. -/
structure MtlsPolicyBody where
  clientValidationCa : List CertProvider
deriving DecidableEq, Repr

/-- The policy dictionary assembled by `create_server_tls_policy`:
`serverCertificate` is present iff `tls`, `mtlsPolicy` iff `mtls`. -/
structure ServerTlsPolicyBody where
  serverCertificate : Option CertProvider
  mtlsPolicy : Option MtlsPolicyBody
deriving DecidableEq, Repr

/-- The policy dictionary assembled by `create_client_tls_policy`:
`serverValidationCa` is present iff `tls`, `clientCertificate` iff `mtls`. -/
structure ClientTlsPolicyBody where
  serverValidationCa : Option (List CertProvider)
  clientCertificate : Option CertProvider
deriving DecidableEq, Repr

/-- One remote call to a collaborator API, with the arguments the Python code
passes.  Polling/read calls (`waitForNetworkEndpointGroup`, the `get` calls)
are recorded too, so that "mutating" can be distinguished by `ApiCall.mutating`. -/
inductive ApiCall where
  | createHealthCheck (name : String) (protocol : HealthCheckProtocol) (port : Option Nat)
  | deleteHealthCheck (name : String)
  | createBackendService (name : String) (healthCheck : Option GcpResource)
      (protocol : BackendServiceProtocol) (affinityHeader : Option String)
  | deleteBackendService (name : String)
  | backendServiceAddBackends (service : GcpResource) (backends : Finset ZonalGcpResource)
  | waitForNetworkEndpointGroup (name : String) (zone : String)
  | deleteUrlMap (name : String)
  | createTargetGrpcProxy (name : String) (urlMap : GcpResource)
  | createTargetHttpProxy (name : String) (urlMap : GcpResource)
  | deleteTargetGrpcProxy (name : String)
  | deleteTargetHttpProxy (name : String)
  | deleteForwardingRule (name : String)
  | deleteFirewallRule (name : String)
  | deleteRouter (name : String)
  | deleteGrpcRoute (name : String)
  | createServerTlsPolicy (name : String) (policy : ServerTlsPolicyBody)
  | getServerTlsPolicy (name : String)
  | deleteServerTlsPolicy (name : String)
  | createClientTlsPolicy (name : String) (policy : ClientTlsPolicyBody)
  | getClientTlsPolicy (name : String)
  | deleteClientTlsPolicy (name : String)
  | deleteEndpointConfigSelector (name : String)
  | patchBackendService (service : GcpResource) (clientTlsPolicyUrl : String)
      (subjectAltNames : List String)
deriving DecidableEq

/-- Whether a remote call mutates remote state.  `waitForNetworkEndpointGroup`
and the `get` calls are reads/polls; everything else creates, deletes or
patches a remote resource. -/
def ApiCall.mutating : ApiCall → Bool
  | .waitForNetworkEndpointGroup _ _ => false
  | .getServerTlsPolicy _ => false
  | .getClientTlsPolicy _ => false
  | _ => true

/-- Exceptions the embedded methods can raise: `valueError` and `typeError`
are the precondition violations raised locally, `runtimeError` is the
exhausted-attempts port error, `apiError` is an error propagated unchanged
from a failing remote call, and `attributeError` models a Python attribute
access on a `None` field. -/
inductive TDError where
  | valueError (msg : String)
  | typeError (msg : String)
  | runtimeError (msg : String)
  | apiError (call : ApiCall)
  | attributeError
deriving DecidableEq

/-- The environment: which remote calls raise, and which resource objects the
remote side hands back (keyed by the requested name, and zone for NEGs). -/
structure Env where
  callFails : ApiCall → Bool
  createdResource : String → GcpResource
  negResource : String → String → ZonalGcpResource
  netsecResource : String → GcpResource

/-- The in-memory state of a `TrafficDirectorManager` (fields of the base
class together with those added by the `TrafficDirectorAppNetManager` and
`TrafficDirectorSecureManager` subclasses). -/
structure TDState where
  project : String
  res_pre : String
  res_suf : String
  health_check : Option GcpResource
  backend_service : Option GcpResource
  backend_service_protocol : Option BackendServiceProtocol
  url_map : Option GcpResource
  firewall_rule : Option GcpResource
  target_proxy : Option GcpResource
  target_proxy_is_http : Bool
  forwarding_rule : Option GcpResource
  backends : Finset ZonalGcpResource
  alternative_backend_service : Option GcpResource
  alternative_backend_service_protocol : Option BackendServiceProtocol
  alternative_backends : Finset ZonalGcpResource
  affinity_backend_service : Option GcpResource
  affinity_backend_service_protocol : Option BackendServiceProtocol
  affinity_backends : Finset ZonalGcpResource
  grpc_route : Option GcpResource
  router : Option GcpResource
  server_tls_policy : Option GcpResource
  ecs : Option GcpResource
  client_tls_policy : Option GcpResource
deriving DecidableEq

/-- Result of running a method body: the remote calls attempted, in order, and
either the updated manager state or the first exception raised. -/
abbrev Step := List ApiCall × Except TDError TDState

/-- Attempt one remote call against the environment: either it succeeds or it
raises, in which case the error is propagated unchanged. -/
def apiAttempt (env : Env) (c : ApiCall) : Except TDError Unit :=
  if env.callFails c then .error (.apiError c) else .ok ()

/-- Sequence two method fragments: a raised exception in the first aborts the
second, exactly as exception propagation does in the Python call sequence.
The traces of attempted calls concatenate. -/
def andThen (r : Step) (f : TDState → Step) : Step :=
  match r with
  | (cs, .error e) => (cs, .error e)
  | (cs, .ok s) => let r2 := f s; (cs ++ r2.1, r2.2)

/-- One remote call followed, on success, by a local state update. -/
def callStep (env : Env) (c : ApiCall) (f : TDState → TDState) (s : TDState) : Step :=
  ([c], match apiAttempt env c with
        | .error e => .error e
        | .ok () => .ok (f s))

/-- The class-variable base names of the managed resource kinds. -/
def BACKEND_SERVICE_NAME : String := "backend-service"

def ALTERNATIVE_BACKEND_SERVICE_NAME : String := "backend-service-alt"

def AFFINITY_BACKEND_SERVICE_NAME : String := "backend-service-affinity"

def HEALTH_CHECK_NAME : String := "health-check"

def URL_MAP_NAME : String := "url-map"

def TARGET_PROXY_NAME : String := "target-proxy"

def FORWARDING_RULE_NAME : String := "forwarding-rule"

def FIREWALL_RULE_NAME : String := "allow-health-checks"

def GRPC_ROUTE_NAME : String := "grpc-route"

def ROUTER_NAME : String := "router"

def SERVER_TLS_POLICY_NAME : String := "server-tls-policy"

def CLIENT_TLS_POLICY_NAME : String := "client-tls-policy"

def ENDPOINT_CONFIG_SELECTOR_NAME : String := "endpoint-policy"

def CERTIFICATE_PROVIDER_INSTANCE : String := "google_cloud_private_spiffe"

/-- `TrafficDirectorManager.make_resource_name`: dash-separated resource name
built from the manager's resource prefix, the kind's base name, and the
resource suffix; the suffix part is appended only when non-empty (Python
truthiness of the string), avoiding a trailing dash.  The Python method is
memoized with `functools.lru_cache`; as a pure function of the manager's
(immutable) prefix and suffix and the base name, memoization does not change
its value, so it is embedded as this pure function. -/
def make_resource_name (pre suf : String) (name : String) : String :=
  String.intercalate "-" (if suf.isEmpty then [pre, name] else [pre, name, suf])

/-- `TrafficDirectorManager.create_health_check`: raises `ValueError` (before
any remote call) when a health check is already recorded; otherwise defaults
the protocol to GRPC, creates the remote health check and records the
returned resource. -/
def create_health_check (env : Env) (protocol : Option HealthCheckProtocol)
    (port : Option Nat) (s : TDState) : Step :=
  match s.health_check with
  | some hc =>
      ([], .error (.valueError
        ("Health check " ++ hc.name ++ " already created, delete it first")))
  | none =>
      let protocol := protocol.getD .GRPC
      let name := make_resource_name s.res_pre s.res_suf HEALTH_CHECK_NAME
      callStep env (.createHealthCheck name protocol port)
        (fun s => { s with health_check := some (env.createdResource name) }) s

/-- `TrafficDirectorManager.delete_health_check`: with `force` deletes by the
derived name regardless of the registry; otherwise deletes the recorded
resource by its name, or returns without any remote call when none is
recorded.  On success the registry entry is cleared. -/
def delete_health_check (env : Env) (force : Bool) (s : TDState) : Step :=
  match (if force then some (make_resource_name s.res_pre s.res_suf HEALTH_CHECK_NAME)
         else s.health_check.map (·.name)) with
  | none => ([], .ok s)
  | some name =>
      callStep env (.deleteHealthCheck name) (fun s => { s with health_check := none }) s

/-- `TrafficDirectorManager.create_backend_service`: defaults the protocol to
GRPC, creates the remote backend service (referencing the recorded health
check) and records the returned resource and the protocol.  Note: unlike
`create_health_check`, there is no already-created guard. -/
def create_backend_service (env : Env) (protocol : Option BackendServiceProtocol)
    (s : TDState) : Step :=
  let protocol := protocol.getD .GRPC
  let name := make_resource_name s.res_pre s.res_suf BACKEND_SERVICE_NAME
  callStep env (.createBackendService name s.health_check protocol none)
    (fun s => { s with backend_service := some (env.createdResource name),
                       backend_service_protocol := some protocol }) s

/-- `TrafficDirectorManager.delete_backend_service`. -/
def delete_backend_service (env : Env) (force : Bool) (s : TDState) : Step :=
  match (if force then some (make_resource_name s.res_pre s.res_suf BACKEND_SERVICE_NAME)
         else s.backend_service.map (·.name)) with
  | none => ([], .ok s)
  | some name =>
      callStep env (.deleteBackendService name) (fun s => { s with backend_service := none }) s

/-- `TrafficDirectorManager.delete_alternative_backend_service`. -/
def delete_alternative_backend_service (env : Env) (force : Bool) (s : TDState) : Step :=
  match (if force then
           some (make_resource_name s.res_pre s.res_suf ALTERNATIVE_BACKEND_SERVICE_NAME)
         else s.alternative_backend_service.map (·.name)) with
  | none => ([], .ok s)
  | some name =>
      callStep env (.deleteBackendService name)
        (fun s => { s with alternative_backend_service := none }) s

/-- `TrafficDirectorManager.delete_affinity_backend_service`. -/
def delete_affinity_backend_service (env : Env) (force : Bool) (s : TDState) : Step :=
  match (if force then
           some (make_resource_name s.res_pre s.res_suf AFFINITY_BACKEND_SERVICE_NAME)
         else s.affinity_backend_service.map (·.name)) with
  | none => ([], .ok s)
  | some name =>
      callStep env (.deleteBackendService name)
        (fun s => { s with affinity_backend_service := none }) s

/-- `TrafficDirectorManager.backend_service_add_backends`: one "set backends"
mutating call handing the backend service the whole tracked backend set.  The
log line dereferences `self.backend_service.name`, so a missing backend
service is an `AttributeError`. -/
def backend_service_add_backends (env : Env) (s : TDState) : Step :=
  match s.backend_service with
  | none => ([], .error .attributeError)
  | some bs => callStep env (.backendServiceAddBackends bs s.backends) id s

/-- The per-zone loop of `backend_service_add_neg_backends`: for each zone in
order, poll until the network endpoint group is visible there and add the
discovered backend to the tracked set (set-membership deduplication). -/
def add_neg_loop (env : Env) (name : String) : List String → TDState → Step
  | [], s => ([], .ok s)
  | zone :: zones, s =>
      andThen
        (callStep env (.waitForNetworkEndpointGroup name zone)
          (fun s => { s with backends := insert (env.negResource name zone) s.backends }) s)
        (add_neg_loop env name zones)

/-- `TrafficDirectorManager.backend_service_add_neg_backends`: wait for the
named network endpoint group in every zone (in the given order), accumulate
the discovered backends into the tracked set, then make the single "set
backends" call with the full set. -/
def backend_service_add_neg_backends (env : Env) (name : String) (zones : List String)
    (s : TDState) : Step :=
  andThen (add_neg_loop env name zones s) (backend_service_add_backends env)

/-- `TrafficDirectorManager.delete_url_map`. -/
def delete_url_map (env : Env) (force : Bool) (s : TDState) : Step :=
  match (if force then some (make_resource_name s.res_pre s.res_suf URL_MAP_NAME)
         else s.url_map.map (·.name)) with
  | none => ([], .ok s)
  | some name =>
      callStep env (.deleteUrlMap name) (fun s => { s with url_map := none }) s

/-- `TrafficDirectorManager.create_target_proxy`: chooses the proxy flavor
from the recorded backend-service protocol — GRPC selects the GRPC proxy
creation path, HTTP2 the HTTP one — and raises `TypeError`, without any
remote call, for any other recorded protocol (including none).  The selected
path logs `self.url_map.name` (an `AttributeError` when no URL map is
recorded) and then makes the single remote proxy-creation call. -/
def create_target_proxy (env : Env) (s : TDState) : Step :=
  let name := make_resource_name s.res_pre s.res_suf TARGET_PROXY_NAME
  match s.backend_service_protocol with
  | some .GRPC =>
      match s.url_map with
      | none => ([], .error .attributeError)
      | some u =>
          callStep env (.createTargetGrpcProxy name u)
            (fun s => { s with target_proxy := some (env.createdResource name),
                               target_proxy_is_http := false }) s
  | some .HTTP2 =>
      match s.url_map with
      | none => ([], .error .attributeError)
      | some u =>
          callStep env (.createTargetHttpProxy name u)
            (fun s => { s with target_proxy := some (env.createdResource name),
                               target_proxy_is_http := true }) s
  | _ => ([], .error (.typeError "Unexpected backend service protocol"))

/-- `TrafficDirectorManager.delete_target_grpc_proxy`: fires whenever a target
proxy is recorded (or under `force`); clears both the proxy record and the
`target_proxy_is_http` flag. -/
def delete_target_grpc_proxy (env : Env) (force : Bool) (s : TDState) : Step :=
  match (if force then some (make_resource_name s.res_pre s.res_suf TARGET_PROXY_NAME)
         else s.target_proxy.map (·.name)) with
  | none => ([], .ok s)
  | some name =>
      callStep env (.deleteTargetGrpcProxy name)
        (fun s => { s with target_proxy := none, target_proxy_is_http := false }) s

/-- `TrafficDirectorManager.delete_target_http_proxy`: in the non-forced path
fires only when the recorded target proxy is an HTTP one
(`target_proxy_is_http`). -/
def delete_target_http_proxy (env : Env) (force : Bool) (s : TDState) : Step :=
  match (if force then some (make_resource_name s.res_pre s.res_suf TARGET_PROXY_NAME)
         else if s.target_proxy_is_http then s.target_proxy.map (·.name) else none) with
  | none => ([], .ok s)
  | some name =>
      callStep env (.deleteTargetHttpProxy name)
        (fun s => { s with target_proxy := none, target_proxy_is_http := false }) s

/-- `TrafficDirectorManager.delete_forwarding_rule`. -/
def delete_forwarding_rule (env : Env) (force : Bool) (s : TDState) : Step :=
  match (if force then some (make_resource_name s.res_pre s.res_suf FORWARDING_RULE_NAME)
         else s.forwarding_rule.map (·.name)) with
  | none => ([], .ok s)
  | some name =>
      callStep env (.deleteForwardingRule name) (fun s => { s with forwarding_rule := none }) s

/-- `TrafficDirectorManager.delete_firewall_rule`. -/
def delete_firewall_rule (env : Env) (force : Bool) (s : TDState) : Step :=
  match (if force then some (make_resource_name s.res_pre s.res_suf FIREWALL_RULE_NAME)
         else s.firewall_rule.map (·.name)) with
  | none => ([], .ok s)
  | some name =>
      callStep env (.deleteFirewallRule name) (fun s => { s with firewall_rule := none }) s

/-- `TrafficDirectorManager.cleanup`: the fixed sequence of per-kind deletes
(forwarding rule, target HTTP proxy, target GRPC proxy, URL map, backend
service, alternative backend service, affinity backend service, health
check), each receiving the same `force` flag.  The body has no exception
handling, so the exception of a failing delete propagates and aborts the
remaining deletes. -/
def cleanup (env : Env) (force : Bool) (s : TDState) : Step :=
  andThen (delete_forwarding_rule env force s) (fun s =>
  andThen (delete_target_http_proxy env force s) (fun s =>
  andThen (delete_target_grpc_proxy env force s) (fun s =>
  andThen (delete_url_map env force s) (fun s =>
  andThen (delete_backend_service env force s) (fun s =>
  andThen (delete_alternative_backend_service env force s) (fun s =>
  andThen (delete_affinity_backend_service env force s) (fun s =>
  delete_health_check env force s)))))))

/-- `TrafficDirectorManager.find_unused_forwarding_rule_port` loop: `i` is the
index into the stream of random samples (`sample i` models the `i`-th
`random.randint(lo, hi)` draw), `fuel` the remaining attempts.  A sampled port
is returned only when the existence-check collaborator reports no forwarding
rule on it; exhausting the budget raises `RuntimeError`. -/
def find_port_loop (existsFR : Nat → Bool) (sample : Nat → Nat) :
    Nat → Nat → Except TDError Nat
  | _, 0 => .error (.runtimeError "Couldn't find unused forwarding rule port")
  | i, fuel + 1 =>
      let src_port := sample i
      if existsFR src_port then find_port_loop existsFR sample (i + 1) fuel
      else .ok src_port

/-- `TrafficDirectorManager.find_unused_forwarding_rule_port`: up to
`attempts` random draws from `[lo, hi]`, returning the first port for which
`compute.exists_forwarding_rule` is false.  The sampler is passed explicitly
(`sample i` being the `i`-th draw of `random.randint(lo, hi)`); the defaults
are `lo = 1024`, `hi = 65535`, `attempts = 25`. -/
def find_unused_forwarding_rule_port (existsFR : Nat → Bool) (sample : Nat → Nat)
    (attempts : Nat := 25) : Except TDError Nat :=
  find_port_loop existsFR sample 0 attempts

/-- `TrafficDirectorAppNetManager.delete_router`. -/
def delete_router (env : Env) (force : Bool) (s : TDState) : Step :=
  match (if force then some (make_resource_name s.res_pre s.res_suf ROUTER_NAME)
         else s.router.map (·.name)) with
  | none => ([], .ok s)
  | some name =>
      callStep env (.deleteRouter name) (fun s => { s with router := none }) s

/-- `TrafficDirectorAppNetManager.delete_grpc_route`. -/
def delete_grpc_route (env : Env) (force : Bool) (s : TDState) : Step :=
  match (if force then some (make_resource_name s.res_pre s.res_suf GRPC_ROUTE_NAME)
         else s.grpc_route.map (·.name)) with
  | none => ([], .ok s)
  | some name =>
      callStep env (.deleteGrpcRoute name) (fun s => { s with grpc_route := none }) s

/-- `TrafficDirectorAppNetManager.cleanup`: deletes the router and the
grpc-route, then runs the base-class cleanup. -/
def appnet_cleanup (env : Env) (force : Bool) (s : TDState) : Step :=
  andThen (delete_router env force s) (fun s =>
  andThen (delete_grpc_route env force s) (fun s =>
  cleanup env force s))

/-- `_get_certificate_provider`: the fixed certificate-provider dictionary
referencing the `google_cloud_private_spiffe` plugin instance. -/
def get_certificate_provider : CertProvider :=
  { pluginInstance := CERTIFICATE_PROVIDER_INSTANCE }

/-- `TrafficDirectorSecureManager.create_server_tls_policy`: with neither
`tls` nor `mtls` requested, logs a warning and returns without any remote
call (the policy field keeps its previous value); otherwise assembles the
policy body from the flags, creates it remotely and loads it back into the
registry. -/
def create_server_tls_policy (env : Env) (tls mtls : Bool) (s : TDState) : Step :=
  let name := make_resource_name s.res_pre s.res_suf SERVER_TLS_POLICY_NAME
  if !tls && !mtls then ([], .ok s)
  else
    let certificate_provider := get_certificate_provider
    let policy : ServerTlsPolicyBody :=
      { serverCertificate := if tls then some certificate_provider else none,
        mtlsPolicy :=
          if mtls then some { clientValidationCa := [certificate_provider] } else none }
    andThen (callStep env (.createServerTlsPolicy name policy) id s) (fun s =>
      callStep env (.getServerTlsPolicy name)
        (fun s => { s with server_tls_policy := some (env.netsecResource name) }) s)

/-- `TrafficDirectorSecureManager.delete_server_tls_policy`. -/
def delete_server_tls_policy (env : Env) (force : Bool) (s : TDState) : Step :=
  match (if force then some (make_resource_name s.res_pre s.res_suf SERVER_TLS_POLICY_NAME)
         else s.server_tls_policy.map (·.name)) with
  | none => ([], .ok s)
  | some name =>
      callStep env (.deleteServerTlsPolicy name)
        (fun s => { s with server_tls_policy := none }) s

/-- `TrafficDirectorSecureManager.delete_endpoint_config_selector`. -/
def delete_endpoint_config_selector (env : Env) (force : Bool) (s : TDState) : Step :=
  match (if force then
           some (make_resource_name s.res_pre s.res_suf ENDPOINT_CONFIG_SELECTOR_NAME)
         else s.ecs.map (·.name)) with
  | none => ([], .ok s)
  | some name =>
      callStep env (.deleteEndpointConfigSelector name) (fun s => { s with ecs := none }) s

/-- `TrafficDirectorSecureManager.create_client_tls_policy`: with neither
`tls` nor `mtls` requested, logs a warning and returns without any remote
call; otherwise assembles the policy body from the flags, creates it remotely
and loads it back into the registry. -/
def create_client_tls_policy (env : Env) (tls mtls : Bool) (s : TDState) : Step :=
  let name := make_resource_name s.res_pre s.res_suf CLIENT_TLS_POLICY_NAME
  if !tls && !mtls then ([], .ok s)
  else
    let certificate_provider := get_certificate_provider
    let policy : ClientTlsPolicyBody :=
      { serverValidationCa := if tls then some [certificate_provider] else none,
        clientCertificate := if mtls then some certificate_provider else none }
    andThen (callStep env (.createClientTlsPolicy name policy) id s) (fun s =>
      callStep env (.getClientTlsPolicy name)
        (fun s => { s with client_tls_policy := some (env.netsecResource name) }) s)

/-- `TrafficDirectorSecureManager.delete_client_tls_policy`. -/
def delete_client_tls_policy (env : Env) (force : Bool) (s : TDState) : Step :=
  match (if force then some (make_resource_name s.res_pre s.res_suf CLIENT_TLS_POLICY_NAME)
         else s.client_tls_policy.map (·.name)) with
  | none => ([], .ok s)
  | some name =>
      callStep env (.deleteClientTlsPolicy name)
        (fun s => { s with client_tls_policy := none }) s

/-- `TrafficDirectorSecureManager.cleanup`: runs the base-class cleanup first,
then deletes the endpoint config selector, the server TLS policy and the
client TLS policy. -/
def secure_cleanup (env : Env) (force : Bool) (s : TDState) : Step :=
  andThen (cleanup env force s) (fun s =>
  andThen (delete_endpoint_config_selector env force s) (fun s =>
  andThen (delete_server_tls_policy env force s) (fun s =>
  delete_client_tls_policy env force s)))

/-- `TrafficDirectorSecureManager.backend_service_apply_client_mtls_policy`:
when no client TLS policy is recorded, logs a warning (dereferencing
`self.backend_service.name`) and returns without any remote call; otherwise
patches the backend service's security settings with the policy URL and the
server SPIFFE identity built from the project, namespace and name. -/
def backend_service_apply_client_mtls_policy (env : Env)
    (server_namespace server_name : String) (s : TDState) : Step :=
  match s.client_tls_policy with
  | none =>
      match s.backend_service with
      | none => ([], .error .attributeError)
      | some _ => ([], .ok s)
  | some ctp =>
      match s.backend_service with
      | none => ([], .error .attributeError)
      | some bs =>
          let server_spiffe := "spiffe://" ++ s.project ++ ".svc.id.goog/" ++
            "ns/" ++ server_namespace ++ "/sa/" ++ server_name
          callStep env (.patchBackendService bs ctp.url [server_spiffe]) id s

/-- A benign environment for concrete runs: no remote call fails, and every
create/get returns a resource whose name is the requested one. -/
def sampleEnvOk : Env where
  callFails := fun _ => false
  createdResource := fun n => { name := n, url := "url/" ++ n }
  negResource := fun n z => { name := n, url := "url/" ++ n, zone := z }
  netsecResource := fun n => { name := n, url := "url/" ++ n }

/-- An environment in which exactly the forwarding-rule delete call raises. -/
def failFwdEnv : Env where
  callFails := fun c => match c with
    | .deleteForwardingRule _ => true
    | _ => false
  createdResource := fun n => { name := n, url := "url/" ++ n }
  negResource := fun n z => { name := n, url := "url/" ++ n, zone := z }
  netsecResource := fun n => { name := n, url := "url/" ++ n }

/-- A freshly-constructed manager state: prefix `psm`, suffix `s`, no resource
recorded (exactly the field initialisation of `__init__`). -/
def emptyState : TDState where
  project := "proj"
  res_pre := "psm"
  res_suf := "s"
  health_check := none
  backend_service := none
  backend_service_protocol := none
  url_map := none
  firewall_rule := none
  target_proxy := none
  target_proxy_is_http := false
  forwarding_rule := none
  backends := ∅
  alternative_backend_service := none
  alternative_backend_service_protocol := none
  alternative_backends := ∅
  affinity_backend_service := none
  affinity_backend_service_protocol := none
  affinity_backends := ∅
  grpc_route := none
  router := none
  server_tls_policy := none
  ecs := none
  client_tls_policy := none

/-- A manager state that records every managed resource as present (as after a
full creation sequence), with prefix `psm` and suffix `s`. -/
def fullState : TDState where
  project := "proj"
  res_pre := "psm"
  res_suf := "s"
  health_check := some { name := "old-health-check", url := "u-hc" }
  backend_service := some { name := "old-backend-service", url := "u-bs" }
  backend_service_protocol := some .GRPC
  url_map := some { name := "old-url-map", url := "u-um" }
  firewall_rule := some { name := "old-firewall-rule", url := "u-fw" }
  target_proxy := some { name := "old-target-proxy", url := "u-tp" }
  target_proxy_is_http := false
  forwarding_rule := some { name := "old-forwarding-rule", url := "u-fr" }
  backends := ∅
  alternative_backend_service := some { name := "old-backend-service-alt", url := "u-abs" }
  alternative_backend_service_protocol := some .GRPC
  alternative_backends := ∅
  affinity_backend_service := some { name := "old-backend-service-affinity", url := "u-afs" }
  affinity_backend_service_protocol := some .GRPC
  affinity_backends := ∅
  grpc_route := some { name := "old-grpc-route", url := "u-gr" }
  router := some { name := "old-router", url := "u-rt" }
  server_tls_policy := some { name := "old-server-tls-policy", url := "u-stp" }
  ecs := some { name := "old-endpoint-policy", url := "u-ecs" }
  client_tls_policy := some { name := "old-client-tls-policy", url := "u-ctp" }

/-- Reduction of `make_resource_name` with a non-empty suffix. -/
theorem make_resource_name_of_suf_ne (pre suf name : String) (h : suf ≠ "") :
    make_resource_name pre suf name = pre ++ "-" ++ name ++ "-" ++ suf := by
  have hs : suf.isEmpty = false := by
    cases he : suf.isEmpty
    · rfl
    · exact absurd ((String.isEmpty_iff suf).mp he) h
  simp only [make_resource_name, hs, Bool.false_eq_true, if_false]
  rfl

/-- Reduction of `make_resource_name` with the empty suffix. -/
theorem make_resource_name_of_suf_empty (pre name : String) :
    make_resource_name pre "" name = pre ++ "-" ++ name := by
  rfl

/-- C6: for every (prefix, suffix, kind base name), `make_resource_name` is a
pure function, so repeated calls with identical inputs return identical
strings; with a non-empty suffix the result is prefix, base name and suffix
joined by dashes; with an empty suffix the suffix segment is omitted entirely
(the result is just prefix-dash-name), and — provided the base name is
non-empty and does not itself end in a dash, which holds for every resource
kind constant of the class — the result never ends in the dash separator. -/
theorem claim_C6_resource_name_pure_stable (pre suf name : String) :
    make_resource_name pre suf name = make_resource_name pre suf name ∧
    (suf ≠ "" → make_resource_name pre suf name = pre ++ "-" ++ name ++ "-" ++ suf) ∧
    (suf = "" → make_resource_name pre suf name = pre ++ "-" ++ name) ∧
    (suf = "" → name ≠ "" → name.data.getLast? ≠ some '-' →
      (make_resource_name pre suf name).data.getLast? ≠ some '-') := by
  refine ⟨rfl, make_resource_name_of_suf_ne pre suf name, ?_, ?_⟩
  · rintro rfl
    exact make_resource_name_of_suf_empty pre name
  · rintro rfl hname hlast
    rw [make_resource_name_of_suf_empty pre name]
    have hdata : (pre ++ "-" ++ name).data = (pre.data ++ ['-']) ++ name.data := by
      rw [String.data_append, String.data_append]
    have hne : name.data ≠ [] := by
      intro hnil
      exact hname (String.ext hnil)
    rw [hdata, List.getLast?_append_of_ne_nil _ hne]
    exact hlast

/-- Witness for C6 at a concrete input: prefix `psm`, empty suffix, the
health-check kind; the derived name is `psm-health-check` with no trailing
dash. -/
theorem claim_C6_witness :
    make_resource_name "psm" "" HEALTH_CHECK_NAME = "psm" ++ "-" ++ HEALTH_CHECK_NAME ∧
    (make_resource_name "psm" "" HEALTH_CHECK_NAME).data.getLast? ≠ some '-' ∧
    make_resource_name "psm" "20251012" HEALTH_CHECK_NAME =
      "psm" ++ "-" ++ HEALTH_CHECK_NAME ++ "-" ++ "20251012" :=
  ⟨(claim_C6_resource_name_pure_stable "psm" "" HEALTH_CHECK_NAME).2.2.1 rfl,
   (claim_C6_resource_name_pure_stable "psm" "" HEALTH_CHECK_NAME).2.2.2 rfl
     (by decide) (by decide),
   (claim_C6_resource_name_pure_stable "psm" "20251012" HEALTH_CHECK_NAME).2.1
     (by decide)⟩

/-- C5: `create_target_proxy` selects the GRPC proxy creation path when the
recorded backend-service protocol is GRPC and the HTTP proxy creation path
when it is HTTP2 (in each case making exactly that one remote create and
recording the returned proxy and its flavor flag); for any other recorded
protocol value, including none, it raises `TypeError` with no remote call at
all — in particular no remote create is invoked in the error case. -/
theorem claim_C5_target_proxy_flavor (env : Env) (s : TDState)
    (h : ∀ c, env.callFails c = false) :
    (∀ u, s.url_map = some u → s.backend_service_protocol = some .GRPC →
      create_target_proxy env s =
        ([.createTargetGrpcProxy (make_resource_name s.res_pre s.res_suf TARGET_PROXY_NAME) u],
         .ok { s with
            target_proxy := some (env.createdResource
              (make_resource_name s.res_pre s.res_suf TARGET_PROXY_NAME)),
            target_proxy_is_http := false })) ∧
    (∀ u, s.url_map = some u → s.backend_service_protocol = some .HTTP2 →
      create_target_proxy env s =
        ([.createTargetHttpProxy (make_resource_name s.res_pre s.res_suf TARGET_PROXY_NAME) u],
         .ok { s with
            target_proxy := some (env.createdResource
              (make_resource_name s.res_pre s.res_suf TARGET_PROXY_NAME)),
            target_proxy_is_http := true })) ∧
    (s.backend_service_protocol ≠ some .GRPC → s.backend_service_protocol ≠ some .HTTP2 →
      create_target_proxy env s =
        ([], .error (.typeError "Unexpected backend service protocol"))) := by
  refine ⟨?_, ?_, ?_⟩
  · intro u hu hp
    simp [create_target_proxy, hu, hp, callStep, apiAttempt, h]
  · intro u hu hp
    simp [create_target_proxy, hu, hp, callStep, apiAttempt, h]
  · intro hg hh
    match hp : s.backend_service_protocol with
    | none => simp [create_target_proxy, hp]
    | some .GRPC => exact absurd hp hg
    | some .HTTP2 => exact absurd hp hh
    | some .TCP => simp [create_target_proxy, hp]

/-- Witness for C5: on `fullState` (protocol GRPC, URL map present) the GRPC
path is taken; with the protocol overwritten to HTTP2 the HTTP path is taken;
with no recorded protocol the call raises `TypeError` with an empty trace. -/
theorem claim_C5_witness :
    create_target_proxy sampleEnvOk fullState =
      ([.createTargetGrpcProxy "psm-target-proxy-s" { name := "old-url-map", url := "u-um" }],
       .ok { fullState with
          target_proxy := some (sampleEnvOk.createdResource "psm-target-proxy-s"),
          target_proxy_is_http := false }) ∧
    create_target_proxy sampleEnvOk
        { fullState with backend_service_protocol := some .HTTP2 } =
      ([.createTargetHttpProxy "psm-target-proxy-s" { name := "old-url-map", url := "u-um" }],
       .ok { fullState with
          backend_service_protocol := some .HTTP2,
          target_proxy := some (sampleEnvOk.createdResource "psm-target-proxy-s"),
          target_proxy_is_http := true }) ∧
    create_target_proxy sampleEnvOk
        { fullState with backend_service_protocol := none } =
      ([], .error (.typeError "Unexpected backend service protocol")) :=
  ⟨by
    have h := (claim_C5_target_proxy_flavor sampleEnvOk fullState (fun _ => rfl)).1
      { name := "old-url-map", url := "u-um" } rfl rfl
    simpa [make_resource_name] using h,
   by
    have h := (claim_C5_target_proxy_flavor sampleEnvOk
      { fullState with backend_service_protocol := some .HTTP2 } (fun _ => rfl)).2.1
      { name := "old-url-map", url := "u-um" } rfl rfl
    simpa [make_resource_name] using h,
   by
    have h := (claim_C5_target_proxy_flavor sampleEnvOk
      { fullState with backend_service_protocol := none } (fun _ => rfl)).2.2
      (by simp) (by simp)
    simpa using h⟩

/-- C8: a non-forced `cleanup` on a manager whose registry records none of the
cleaned-up resource kinds attempts no remote call at all (in particular zero
mutating calls), succeeds, and leaves the manager state unchanged: every
per-kind delete returns early on its local presence check. -/
theorem claim_C8_cleanup_empty_noop (env : Env) (s : TDState)
    (h1 : s.forwarding_rule = none) (h2 : s.target_proxy = none)
    (h3 : s.url_map = none) (h4 : s.backend_service = none)
    (h5 : s.alternative_backend_service = none) (h6 : s.affinity_backend_service = none)
    (h7 : s.health_check = none) :
    cleanup env false s = ([], .ok s) := by
  simp [cleanup, andThen, delete_forwarding_rule, delete_target_http_proxy,
    delete_target_grpc_proxy, delete_url_map, delete_backend_service,
    delete_alternative_backend_service, delete_affinity_backend_service,
    delete_health_check, h1, h2, h3, h4, h5, h6, h7]

/-- Witness for C8: non-forced cleanup of the freshly-constructed manager
state makes no call and returns the state unchanged. -/
theorem claim_C8_witness : cleanup sampleEnvOk false emptyState = ([], .ok emptyState) :=
  claim_C8_cleanup_empty_noop sampleEnvOk emptyState rfl rfl rfl rfl rfl rfl rfl

/-- C9: `create_server_tls_policy` and `create_client_tls_policy` called with
`tls = false` and `mtls = false` make no remote call and return with the
state unchanged — in particular, when the corresponding policy field was
absent it is still absent (no empty policy is created). -/
theorem claim_C9_skip_policy_creation (env : Env) (s : TDState)
    (h1 : s.server_tls_policy = none) (h2 : s.client_tls_policy = none) :
    create_server_tls_policy env false false s = ([], .ok s) ∧
    create_client_tls_policy env false false s = ([], .ok s) ∧
    s.server_tls_policy = none ∧ s.client_tls_policy = none :=
  ⟨rfl, rfl, h1, h2⟩

/-- Witness for C9 on the freshly-constructed state: both policy creations
skip, and both policy fields stay `none`. -/
theorem claim_C9_witness :
    create_server_tls_policy sampleEnvOk false false emptyState = ([], .ok emptyState) ∧
    create_client_tls_policy sampleEnvOk false false emptyState = ([], .ok emptyState) ∧
    emptyState.server_tls_policy = none ∧ emptyState.client_tls_policy = none :=
  claim_C9_skip_policy_creation sampleEnvOk emptyState rfl rfl

/-- C10: `backend_service_apply_client_mtls_policy` with no recorded client
TLS policy (and a recorded backend service, which the skip path's log line
dereferences) makes no remote call — in particular no patch of the backend
service — and returns the state unchanged. -/
theorem claim_C10_no_policy_no_patch (env : Env) (server_namespace server_name : String)
    (s : TDState) (bs : GcpResource)
    (h1 : s.client_tls_policy = none) (h2 : s.backend_service = some bs) :
    backend_service_apply_client_mtls_policy env server_namespace server_name s =
      ([], .ok s) := by
  simp [backend_service_apply_client_mtls_policy, h1, h2]

/-- Witness for C10: a state with a backend service but no client TLS policy;
the call is a no-op. -/
theorem claim_C10_witness :
    backend_service_apply_client_mtls_policy sampleEnvOk "ns" "srv"
        { fullState with client_tls_policy := none } =
      ([], .ok { fullState with client_tls_policy := none }) :=
  claim_C10_no_policy_no_patch sampleEnvOk "ns" "srv"
    { fullState with client_tls_policy := none }
    { name := "old-backend-service", url := "u-bs" } rfl rfl

/-- Counterexample to C1: the claim quantifies over *every* resource kind, but
`create_backend_service` has no already-created guard.  On a state whose
registry already records a backend service, a second `create_backend_service`
does not fail with an already-exists error: it performs the remote mutating
create call and replaces the registry entry with the newly returned
resource. -/
theorem claim_C1_counterexample :
    create_backend_service sampleEnvOk (some .GRPC) fullState =
      ([.createBackendService "psm-backend-service-s"
          (some { name := "old-health-check", url := "u-hc" }) .GRPC none],
       .ok { fullState with
          backend_service := some { name := "psm-backend-service-s",
                                    url := "url/psm-backend-service-s" },
          backend_service_protocol := some .GRPC }) ∧
    fullState.backend_service = some { name := "old-backend-service", url := "u-bs" } ∧
    (ApiCall.createBackendService "psm-backend-service-s"
        (some { name := "old-health-check", url := "u-hc" }) .GRPC none).mutating = true ∧
    some ({ name := "psm-backend-service-s", url := "url/psm-backend-service-s" } : GcpResource)
      ≠ fullState.backend_service := by
  refine ⟨rfl, rfl, rfl, by decide⟩

/-- C1 as amended: only the health-check kind enforces the already-exists
precondition — `create_health_check` on a state already recording a health
check raises `ValueError` before any remote call (empty trace; since the
exception aborts the method, the registry is unchanged) — whereas
`create_backend_service` performs the remote create unconditionally,
overwriting the registry entry with the newly returned resource. -/
theorem claim_C1_amended_only_health_check_guarded (env : Env) (s : TDState)
    (hc : GcpResource) (protocol : Option HealthCheckProtocol) (port : Option Nat)
    (h : s.health_check = some hc) :
    create_health_check env protocol port s =
      ([], .error (.valueError
        ("Health check " ++ hc.name ++ " already created, delete it first"))) ∧
    (∀ bp : Option BackendServiceProtocol, (∀ c, env.callFails c = false) →
      create_backend_service env bp s =
        ([.createBackendService (make_resource_name s.res_pre s.res_suf BACKEND_SERVICE_NAME)
            s.health_check (bp.getD .GRPC) none],
         .ok { s with
            backend_service := some (env.createdResource
              (make_resource_name s.res_pre s.res_suf BACKEND_SERVICE_NAME)),
            backend_service_protocol := some (bp.getD .GRPC) })) := by
  constructor
  · simp [create_health_check, h]
  · intro bp hnf
    simp [create_backend_service, callStep, apiAttempt, hnf]

/-- Witness for the amended C1 on `fullState`: the second health-check create
raises with an empty trace; the second backend-service create goes through
remotely and overwrites the registry entry. -/
theorem claim_C1_witness :
    create_health_check sampleEnvOk none none fullState =
      ([], .error (.valueError
        "Health check old-health-check already created, delete it first")) ∧
    create_backend_service sampleEnvOk none fullState =
      ([.createBackendService "psm-backend-service-s"
          (some { name := "old-health-check", url := "u-hc" }) .GRPC none],
       .ok { fullState with
          backend_service := some { name := "psm-backend-service-s",
                                    url := "url/psm-backend-service-s" },
          backend_service_protocol := some .GRPC }) := by
  have h := claim_C1_amended_only_health_check_guarded sampleEnvOk fullState
    { name := "old-health-check", url := "u-hc" } none none rfl
  exact ⟨h.1, h.2 none (fun _ => rfl)⟩

/-- Counterexample to C2: in an environment where the forwarding-rule delete
raises, a non-forced `cleanup` of a fully-populated manager attempts only
that first delete — its exception propagates and the delete attempts for
every remaining kind (health check, backend services, URL map, proxies) never
happen, although those kinds are still recorded as present. -/
theorem claim_C2_counterexample :
    cleanup failFwdEnv false fullState =
      ([.deleteForwardingRule "old-forwarding-rule"],
       .error (.apiError (.deleteForwardingRule "old-forwarding-rule"))) ∧
    fullState.health_check = some { name := "old-health-check", url := "u-hc" } ∧
    ApiCall.deleteHealthCheck "old-health-check" ∉
      (cleanup failFwdEnv false fullState).1 ∧
    ApiCall.deleteBackendService "old-backend-service" ∉
      (cleanup failFwdEnv false fullState).1 :=
  ⟨rfl, rfl, by decide, by decide⟩

/-- C2 as amended: cleanup attempts the per-kind deletes strictly in sequence
and is fail-fast — a failing delete raises and prevents the delete attempts
for the remaining kinds (see the counterexample) — and only when no delete
fails does it reach every kind: under `force` with a non-failing control
plane the trace is exactly the eight per-kind delete calls, in order, and
every registry entry handled by the base cleanup ends up cleared. -/
theorem claim_C2_amended_fail_fast (env : Env) (s : TDState)
    (h : ∀ c, env.callFails c = false) :
    cleanup env true s =
      ([.deleteForwardingRule (make_resource_name s.res_pre s.res_suf FORWARDING_RULE_NAME),
        .deleteTargetHttpProxy (make_resource_name s.res_pre s.res_suf TARGET_PROXY_NAME),
        .deleteTargetGrpcProxy (make_resource_name s.res_pre s.res_suf TARGET_PROXY_NAME),
        .deleteUrlMap (make_resource_name s.res_pre s.res_suf URL_MAP_NAME),
        .deleteBackendService (make_resource_name s.res_pre s.res_suf BACKEND_SERVICE_NAME),
        .deleteBackendService
          (make_resource_name s.res_pre s.res_suf ALTERNATIVE_BACKEND_SERVICE_NAME),
        .deleteBackendService
          (make_resource_name s.res_pre s.res_suf AFFINITY_BACKEND_SERVICE_NAME),
        .deleteHealthCheck (make_resource_name s.res_pre s.res_suf HEALTH_CHECK_NAME)],
       .ok { s with
          forwarding_rule := none, target_proxy := none, target_proxy_is_http := false,
          url_map := none, backend_service := none, alternative_backend_service := none,
          affinity_backend_service := none, health_check := none }) := by
  simp [cleanup, andThen, delete_forwarding_rule, delete_target_http_proxy,
    delete_target_grpc_proxy, delete_url_map, delete_backend_service,
    delete_alternative_backend_service, delete_affinity_backend_service,
    delete_health_check, callStep, apiAttempt, h]

/-- Witness for the amended C2: forced cleanup of `fullState` under the benign
environment issues all eight delete calls in order and clears the registry. -/
theorem claim_C2_witness :
    cleanup sampleEnvOk true fullState =
      ([.deleteForwardingRule (make_resource_name "psm" "s" FORWARDING_RULE_NAME),
        .deleteTargetHttpProxy (make_resource_name "psm" "s" TARGET_PROXY_NAME),
        .deleteTargetGrpcProxy (make_resource_name "psm" "s" TARGET_PROXY_NAME),
        .deleteUrlMap (make_resource_name "psm" "s" URL_MAP_NAME),
        .deleteBackendService (make_resource_name "psm" "s" BACKEND_SERVICE_NAME),
        .deleteBackendService (make_resource_name "psm" "s" ALTERNATIVE_BACKEND_SERVICE_NAME),
        .deleteBackendService (make_resource_name "psm" "s" AFFINITY_BACKEND_SERVICE_NAME),
        .deleteHealthCheck (make_resource_name "psm" "s" HEALTH_CHECK_NAME)],
       .ok { fullState with
          forwarding_rule := none, target_proxy := none, target_proxy_is_http := false,
          url_map := none, backend_service := none, alternative_backend_service := none,
          affinity_backend_service := none, health_check := none }) :=
  claim_C2_amended_fail_fast sampleEnvOk fullState (fun _ => rfl)

/-- Counterexample to C3: in the Secure variant the security add-on resources
are *not* deleted before the base sequence.  A forced
`TrafficDirectorSecureManager.cleanup` run first issues the eight base delete
calls (forwarding rule through health check) and only then the endpoint
config selector, server TLS policy and client TLS policy deletes: the
selector delete is absent from the first eight calls, and the trace opens
with the forwarding-rule delete. -/
theorem claim_C3_counterexample :
    (secure_cleanup sampleEnvOk true fullState).1 =
      [.deleteForwardingRule "psm-forwarding-rule-s",
       .deleteTargetHttpProxy "psm-target-proxy-s",
       .deleteTargetGrpcProxy "psm-target-proxy-s",
       .deleteUrlMap "psm-url-map-s",
       .deleteBackendService "psm-backend-service-s",
       .deleteBackendService "psm-backend-service-alt-s",
       .deleteBackendService "psm-backend-service-affinity-s",
       .deleteHealthCheck "psm-health-check-s",
       .deleteEndpointConfigSelector "psm-endpoint-policy-s",
       .deleteServerTlsPolicy "psm-server-tls-policy-s",
       .deleteClientTlsPolicy "psm-client-tls-policy-s"] ∧
    ApiCall.deleteEndpointConfigSelector "psm-endpoint-policy-s" ∉
      ((secure_cleanup sampleEnvOk true fullState).1.take 8) ∧
    (secure_cleanup sampleEnvOk true fullState).1[0]? =
      some (.deleteForwardingRule "psm-forwarding-rule-s") :=
  ⟨rfl, by decide, rfl⟩

/-- C3 as amended: the AppNet variant does delete its route add-ons (router,
then grpc-route) before the base sequence, but the Secure variant deletes the
base sequence *first* and its security add-ons (endpoint config selector,
server TLS policy, client TLS policy) *after* it.  Under `force` with a
non-failing control plane the two cleanup traces are exactly these call
sequences, and all handled registry entries end up cleared. -/
theorem claim_C3_amended_cleanup_order (env : Env) (s : TDState)
    (h : ∀ c, env.callFails c = false) :
    appnet_cleanup env true s =
      ([.deleteRouter (make_resource_name s.res_pre s.res_suf ROUTER_NAME),
        .deleteGrpcRoute (make_resource_name s.res_pre s.res_suf GRPC_ROUTE_NAME),
        .deleteForwardingRule (make_resource_name s.res_pre s.res_suf FORWARDING_RULE_NAME),
        .deleteTargetHttpProxy (make_resource_name s.res_pre s.res_suf TARGET_PROXY_NAME),
        .deleteTargetGrpcProxy (make_resource_name s.res_pre s.res_suf TARGET_PROXY_NAME),
        .deleteUrlMap (make_resource_name s.res_pre s.res_suf URL_MAP_NAME),
        .deleteBackendService (make_resource_name s.res_pre s.res_suf BACKEND_SERVICE_NAME),
        .deleteBackendService
          (make_resource_name s.res_pre s.res_suf ALTERNATIVE_BACKEND_SERVICE_NAME),
        .deleteBackendService
          (make_resource_name s.res_pre s.res_suf AFFINITY_BACKEND_SERVICE_NAME),
        .deleteHealthCheck (make_resource_name s.res_pre s.res_suf HEALTH_CHECK_NAME)],
       .ok { s with
          router := none, grpc_route := none,
          forwarding_rule := none, target_proxy := none, target_proxy_is_http := false,
          url_map := none, backend_service := none, alternative_backend_service := none,
          affinity_backend_service := none, health_check := none }) ∧
    secure_cleanup env true s =
      ([.deleteForwardingRule (make_resource_name s.res_pre s.res_suf FORWARDING_RULE_NAME),
        .deleteTargetHttpProxy (make_resource_name s.res_pre s.res_suf TARGET_PROXY_NAME),
        .deleteTargetGrpcProxy (make_resource_name s.res_pre s.res_suf TARGET_PROXY_NAME),
        .deleteUrlMap (make_resource_name s.res_pre s.res_suf URL_MAP_NAME),
        .deleteBackendService (make_resource_name s.res_pre s.res_suf BACKEND_SERVICE_NAME),
        .deleteBackendService
          (make_resource_name s.res_pre s.res_suf ALTERNATIVE_BACKEND_SERVICE_NAME),
        .deleteBackendService
          (make_resource_name s.res_pre s.res_suf AFFINITY_BACKEND_SERVICE_NAME),
        .deleteHealthCheck (make_resource_name s.res_pre s.res_suf HEALTH_CHECK_NAME),
        .deleteEndpointConfigSelector
          (make_resource_name s.res_pre s.res_suf ENDPOINT_CONFIG_SELECTOR_NAME),
        .deleteServerTlsPolicy (make_resource_name s.res_pre s.res_suf SERVER_TLS_POLICY_NAME),
        .deleteClientTlsPolicy (make_resource_name s.res_pre s.res_suf CLIENT_TLS_POLICY_NAME)],
       .ok { s with
          forwarding_rule := none, target_proxy := none, target_proxy_is_http := false,
          url_map := none, backend_service := none, alternative_backend_service := none,
          affinity_backend_service := none, health_check := none,
          ecs := none, server_tls_policy := none, client_tls_policy := none }) := by
  constructor
  · simp [appnet_cleanup, delete_router, delete_grpc_route, cleanup, andThen,
      delete_forwarding_rule, delete_target_http_proxy, delete_target_grpc_proxy,
      delete_url_map, delete_backend_service, delete_alternative_backend_service,
      delete_affinity_backend_service, delete_health_check, callStep, apiAttempt, h]
  · simp [secure_cleanup, delete_endpoint_config_selector, delete_server_tls_policy,
      delete_client_tls_policy, cleanup, andThen,
      delete_forwarding_rule, delete_target_http_proxy, delete_target_grpc_proxy,
      delete_url_map, delete_backend_service, delete_alternative_backend_service,
      delete_affinity_backend_service, delete_health_check, callStep, apiAttempt, h]

/-- Witness for the amended C3 at `fullState` under the benign environment. -/
theorem claim_C3_witness :
    (appnet_cleanup sampleEnvOk true fullState).1 =
      [.deleteRouter (make_resource_name "psm" "s" ROUTER_NAME),
       .deleteGrpcRoute (make_resource_name "psm" "s" GRPC_ROUTE_NAME),
       .deleteForwardingRule (make_resource_name "psm" "s" FORWARDING_RULE_NAME),
       .deleteTargetHttpProxy (make_resource_name "psm" "s" TARGET_PROXY_NAME),
       .deleteTargetGrpcProxy (make_resource_name "psm" "s" TARGET_PROXY_NAME),
       .deleteUrlMap (make_resource_name "psm" "s" URL_MAP_NAME),
       .deleteBackendService (make_resource_name "psm" "s" BACKEND_SERVICE_NAME),
       .deleteBackendService (make_resource_name "psm" "s" ALTERNATIVE_BACKEND_SERVICE_NAME),
       .deleteBackendService (make_resource_name "psm" "s" AFFINITY_BACKEND_SERVICE_NAME),
       .deleteHealthCheck (make_resource_name "psm" "s" HEALTH_CHECK_NAME)] ∧
    (secure_cleanup sampleEnvOk true fullState).1 =
      [.deleteForwardingRule (make_resource_name "psm" "s" FORWARDING_RULE_NAME),
       .deleteTargetHttpProxy (make_resource_name "psm" "s" TARGET_PROXY_NAME),
       .deleteTargetGrpcProxy (make_resource_name "psm" "s" TARGET_PROXY_NAME),
       .deleteUrlMap (make_resource_name "psm" "s" URL_MAP_NAME),
       .deleteBackendService (make_resource_name "psm" "s" BACKEND_SERVICE_NAME),
       .deleteBackendService (make_resource_name "psm" "s" ALTERNATIVE_BACKEND_SERVICE_NAME),
       .deleteBackendService (make_resource_name "psm" "s" AFFINITY_BACKEND_SERVICE_NAME),
       .deleteHealthCheck (make_resource_name "psm" "s" HEALTH_CHECK_NAME),
       .deleteEndpointConfigSelector (make_resource_name "psm" "s" ENDPOINT_CONFIG_SELECTOR_NAME),
       .deleteServerTlsPolicy (make_resource_name "psm" "s" SERVER_TLS_POLICY_NAME),
       .deleteClientTlsPolicy (make_resource_name "psm" "s" CLIENT_TLS_POLICY_NAME)] := by
  have h := claim_C3_amended_cleanup_order sampleEnvOk fullState (fun _ => rfl)
  exact ⟨congrArg Prod.fst h.1, congrArg Prod.fst h.2⟩

/-- The per-zone accumulation loop, under an environment in which the polls
succeed: it polls the zones in the given order and folds every discovered
backend into the tracked set. -/
theorem add_neg_loop_noFail (env : Env) (name : String)
    (h : ∀ c, env.callFails c = false) :
    ∀ (zones : List String) (s : TDState),
      add_neg_loop env name zones s =
        (zones.map (ApiCall.waitForNetworkEndpointGroup name),
         .ok { s with backends :=
           zones.foldl (fun acc z => insert (env.negResource name z) acc) s.backends }) := by
  intro zones
  induction zones with
  | nil => intro s; rfl
  | cons z zs ih =>
      intro s
      simp only [add_neg_loop, callStep, apiAttempt, h, Bool.false_eq_true, if_false,
        andThen, List.map, List.foldl]
      rw [ih]
      rfl

/-- The poll calls are non-mutating, so they are filtered out of a trace. -/
theorem filter_mutating_waits (name : String) (zones : List String) :
    (zones.map (ApiCall.waitForNetworkEndpointGroup name)).filter (·.mutating) = [] := by
  induction zones with
  | nil => rfl
  | cons z zs ih => simp [ApiCall.mutating, ih]

/-- C4: `backend_service_add_neg_backends` polls every zone of the input
sequence in the given order, accumulates each discovered backend into the
tracked set (a set insert, so duplicates are deduplicated by membership), and
then performs exactly one "set backends" mutating call presenting the full
accumulated set: the trace is the per-zone polls followed by the single
`backendServiceAddBackends` call, and that call is the only mutating call in
the whole trace — never one incremental call per zone. -/
theorem claim_C4_single_set_backends_call (env : Env) (name : String)
    (zones : List String) (s : TDState) (bs : GcpResource)
    (h : ∀ c, env.callFails c = false) (hbs : s.backend_service = some bs) :
    backend_service_add_neg_backends env name zones s =
      (zones.map (ApiCall.waitForNetworkEndpointGroup name) ++
        [.backendServiceAddBackends bs
          (zones.foldl (fun acc z => insert (env.negResource name z) acc) s.backends)],
       .ok { s with backends :=
         zones.foldl (fun acc z => insert (env.negResource name z) acc) s.backends }) ∧
    (backend_service_add_neg_backends env name zones s).1.filter (·.mutating) =
      [.backendServiceAddBackends bs
        (zones.foldl (fun acc z => insert (env.negResource name z) acc) s.backends)] := by
  have hmain : backend_service_add_neg_backends env name zones s =
      (zones.map (ApiCall.waitForNetworkEndpointGroup name) ++
        [.backendServiceAddBackends bs
          (zones.foldl (fun acc z => insert (env.negResource name z) acc) s.backends)],
       .ok { s with backends :=
         zones.foldl (fun acc z => insert (env.negResource name z) acc) s.backends }) := by
    rw [backend_service_add_neg_backends, add_neg_loop_noFail env name h zones s]
    simp [andThen, backend_service_add_backends, hbs, callStep, apiAttempt, h]
  refine ⟨hmain, ?_⟩
  rw [hmain]
  simp [List.filter_append, filter_mutating_waits, List.filter, ApiCall.mutating]

/-- Witness for C4: two zones against the benign environment, starting from
`fullState`; the trace is the two polls followed by the single set-backends
call with the union of both discovered backends. -/
theorem claim_C4_witness :
    backend_service_add_neg_backends sampleEnvOk "neg" ["zone-a", "zone-b"] fullState =
      ((["zone-a", "zone-b"].map (ApiCall.waitForNetworkEndpointGroup "neg")) ++
        [.backendServiceAddBackends { name := "old-backend-service", url := "u-bs" }
          (["zone-a", "zone-b"].foldl
            (fun acc z => insert (sampleEnvOk.negResource "neg" z) acc) fullState.backends)],
       .ok { fullState with backends :=
         (["zone-a", "zone-b"].foldl
           (fun acc z => insert (sampleEnvOk.negResource "neg" z) acc) fullState.backends) }) ∧
    (backend_service_add_neg_backends sampleEnvOk "neg" ["zone-a", "zone-b"] fullState).1.filter
        (·.mutating) =
      [.backendServiceAddBackends { name := "old-backend-service", url := "u-bs" }
        (["zone-a", "zone-b"].foldl
          (fun acc z => insert (sampleEnvOk.negResource "neg" z) acc) fullState.backends)] :=
  claim_C4_single_set_backends_call sampleEnvOk "neg" ["zone-a", "zone-b"] fullState
    { name := "old-backend-service", url := "u-bs" } (fun _ => rfl) rfl

/-- The retry loop returns only ports the existence check reports as free,
and every returned port is one of the samples. -/
theorem find_port_loop_free (existsFR : Nat → Bool) (sample : Nat → Nat) :
    ∀ (fuel i p : Nat), find_port_loop existsFR sample i fuel = .ok p →
      existsFR p = false ∧ ∃ j, p = sample j := by
  intro fuel
  induction fuel with
  | zero => intro i p hp; exact absurd hp (by simp [find_port_loop])
  | succ n ih =>
      intro i p hp
      rw [find_port_loop] at hp
      by_cases hx : existsFR (sample i)
      · rw [if_pos hx] at hp
        exact ih (i + 1) p hp
      · rw [if_neg hx] at hp
        cases hp
        exact ⟨Bool.not_eq_true _ ▸ Bool.of_not_eq_true hx, i, rfl⟩

/-- The retry loop raises the exhausted-attempts error when every sample in
its budget is reported as occupied. -/
theorem find_port_loop_exhausted (existsFR : Nat → Bool) (sample : Nat → Nat) :
    ∀ (fuel i : Nat), (∀ j, j < fuel → existsFR (sample (i + j)) = true) →
      find_port_loop existsFR sample i fuel =
        .error (.runtimeError "Couldn't find unused forwarding rule port") := by
  intro fuel
  induction fuel with
  | zero => intro i _; rfl
  | succ n ih =>
      intro i hb
      have h0 : existsFR (sample i) = true := by simpa using hb 0 (Nat.succ_pos n)
      rw [find_port_loop, if_pos h0]
      exact ih (i + 1) (fun j hj => by
        have := hb (j + 1) (Nat.succ_lt_succ hj)
        simpa [Nat.add_assoc, Nat.add_comm 1 j] using this)

/-- C7: `find_unused_forwarding_rule_port` never returns a port the
existence-check collaborator reported as existing — every returned port is a
sample (hence in `[lo, hi]` by the `randint` contract on the sampler) whose
existence check came back false — and when every sample in the attempt budget
is reported as occupied it raises the distinct exhausted-attempts
`RuntimeError` instead of returning. -/
theorem claim_C7_unused_port (existsFR : Nat → Bool) (sample : Nat → Nat)
    (lo hi attempts : Nat) (hs : ∀ i, lo ≤ sample i ∧ sample i ≤ hi) :
    (∀ p, find_unused_forwarding_rule_port existsFR sample attempts = .ok p →
      existsFR p = false ∧ lo ≤ p ∧ p ≤ hi) ∧
    ((∀ j, j < attempts → existsFR (sample j) = true) →
      find_unused_forwarding_rule_port existsFR sample attempts =
        .error (.runtimeError "Couldn't find unused forwarding rule port")) := by
  constructor
  · intro p hp
    obtain ⟨hfree, j, rfl⟩ :=
      find_port_loop_free existsFR sample attempts 0 p hp
    exact ⟨hfree, (hs j).1, (hs j).2⟩
  · intro hall
    exact find_port_loop_exhausted existsFR sample attempts 0
      (fun j hj => by simpa using hall j hj)

/-- Witness for C7: a sampler fixed at 3000 within `[1024, 65535]`; with a
collaborator reporting every port free the call returns 3000 (free and in
range); with a collaborator reporting every port occupied, the 25-attempt
budget exhausts into the `RuntimeError`. -/
theorem claim_C7_witness :
    ((fun _ : Nat => false) 3000 = false ∧ 1024 ≤ 3000 ∧ 3000 ≤ 65535) ∧
    find_unused_forwarding_rule_port (fun _ => true) (fun _ => 3000) 25 =
      .error (.runtimeError "Couldn't find unused forwarding rule port") :=
  ⟨(claim_C7_unused_port (fun _ => false) (fun _ => 3000) 1024 65535 25
      (fun _ => ⟨by norm_num, by norm_num⟩)).1 3000 rfl,
   (claim_C7_unused_port (fun _ => true) (fun _ => 3000) 1024 65535 25
      (fun _ => ⟨by norm_num, by norm_num⟩)).2 (fun _ _ => rfl)⟩

